import Mathlib

/-!
Verification of two Haystack pipeline components against their
natural-language specification:
  - `SentenceTransformersDocumentEmbedder`
    (src/haystack/components/embedders/sentence_transformers_document_embedder.py)
  - `PromptBuilder`
    (src/haystack/components/builders/prompt_builder.py)

The Python code is shallowly embedded: dynamic values are a small inductive
type, dictionaries are association lists, exceptions are `Except`, and the
external collaborators (sentence-transformers backend, Jinja2 engine, the
component-registration machinery) are abstracted as parameters, exactly as
the specification declares them out of scope.
-/

namespace Haystack

/-- A small model of a dynamic (Python) value, enough for the metadata
values that the embedder stringifies and truthiness-filters. -/
inductive PyValue where
  | none
  | bool (b : Bool)
  | int (i : Int)
  | str (s : String)
  deriving DecidableEq, Repr

/-- Python truthiness for the modelled values: `bool(v)`. -/
def truthy : PyValue → Bool
  | .none => false
  | .bool b => b
  | .int i => i != 0
  | .str s => s != ""

/-- Python stringification for the modelled values: `str(v)`. -/
def pyStr : PyValue → String
  | .none => "None"
  | .bool true => "True"
  | .bool false => "False"
  | .int i => toString i
  | .str s => s

/-- Modelled from the spec: the Document record (defined elsewhere in the
repository) with at least `content` (optional text), `meta` (a mapping of
string keys to values, modelled as an association list) and a mutable
`embedding` field, initially unset.  The `id` field stands for the
remaining attributes of a Document that the embedder never touches. -/
structure Document where
  id : String
  content : Option String
  meta : List (String × PyValue)
  embedding : Option (List Int)
  deriving DecidableEq, Repr

/-- Modelled from the spec: a credential, either a deferred reference to an
environment variable or a literal token value; carried opaquely by the
embedder and handed to the backend factory. -/
inductive Secret where
  | fromEnvVar (name : String) (strict : Bool)
  | fromToken (value : String)
  deriving DecidableEq, Repr

/-- The embedding backend, an external collaborator: `embed` receives the
texts, the batch size, the progress flag and the normalization flag and
returns one vector per input text (the vectors are opaque; we model them as
integer lists). -/
structure Backend where
  embed : List String → Nat → Bool → Bool → List (List Int)

/-- The state of a `SentenceTransformersDocumentEmbedder` instance: the
constructor parameters stored verbatim by `__init__`, plus the lazily
created backend handle (`none` models the attribute being absent before
`warm_up`).  The Python attribute `prefix` is spelled `prefix_` because
`prefix` is a Lean keyword. -/
structure SentenceTransformersDocumentEmbedder where
  model : String
  device : String
  token : Option Secret
  prefix_ : String
  suffix : String
  batch_size : Nat
  progress_bar : Bool
  normalize_embeddings : Bool
  meta_fields_to_embed : List String
  embedding_separator : String
  embedding_backend : Option Backend

abbrev Embedder := SentenceTransformersDocumentEmbedder

/-- `warm_up`: if the backend handle is already present the call is a
no-op; otherwise it requests a backend from the factory with the stored
model, device and credential and caches it.  The returned Bool records
whether the factory was invoked. -/
def warm_up (factory : String → String → Option Secret → Backend)
    (c : Embedder) : Embedder × Bool :=
  match c.embedding_backend with
  | some _ => (c, false)
  | Option.none =>
      ({ c with embedding_backend := some (factory c.model c.device c.token) }, true)

/-- A dynamic object handed to `run` inside the `documents` list: either an
actual Document or some other Python object (modelled as a string object,
which has neither a `meta` nor a `content` attribute). -/
inductive PyObj where
  | doc (d : Document)
  | str (s : String)
  deriving DecidableEq, Repr

/-- `isinstance(o, Document)`. -/
def PyObj.isDoc : PyObj → Bool
  | .doc _ => true
  | .str _ => false

/-- The dynamic argument passed for `documents`: either a Python list of
objects or some non-list value. -/
inductive RunInput where
  | list (objs : List PyObj)
  | nonList (descr : String)
  deriving DecidableEq, Repr

/-- The exceptions `run` can raise. -/
inductive RunError where
  | typeError (msg : String)
  | runtimeError (msg : String)
  | attributeError (msg : String)
  deriving DecidableEq, Repr

/-- The exact message of the TypeError raised by `run` (the two adjacent
Python string literals concatenate without a separator). -/
def typeErrorMsg : String :=
  "SentenceTransformersDocumentEmbedder expects a list of Documents as input.In case you want to embed a list of strings, please use the SentenceTransformersTextEmbedder."

/-- The exact message of the RuntimeError raised by `run` before `warm_up`. -/
def runtimeErrorMsg : String :=
  "The embedding model has not been loaded. Please call warm_up() before running."

/-- The validation test of `run`:
`not isinstance(documents, list) or documents and not isinstance(documents[0], Document)`
restricted to the list case — true when the list is non-empty and its first
element is not a Document. -/
def failsTypeCheck (objs : List PyObj) : Bool :=
  match objs.head? with
  | some o => !o.isDoc
  | Option.none => false

/-- `[str(doc.meta[key]) for key in self.meta_fields_to_embed if key in doc.meta and doc.meta[key]]`. -/
def metaValuesToEmbed (c : Embedder) (d : Document) : List String :=
  c.meta_fields_to_embed.filterMap fun key =>
    match d.meta.lookup key with
    | some v => if truthy v then some (pyStr v) else Option.none
    | Option.none => Option.none

/-- `self.prefix + self.embedding_separator.join(meta_values_to_embed + [doc.content or ""]) + self.suffix`. -/
def textToEmbed (c : Embedder) (d : Document) : String :=
  c.prefix_ ++
    String.intercalate c.embedding_separator
      (metaValuesToEmbed c d ++ [d.content.getD ""]) ++
    c.suffix

/-- One iteration of the text-building loop on a dynamic element of the
`documents` list.  On a Document it builds the text to embed; on a string
object the attribute access (`.meta` when metadata fields are configured,
otherwise `.content`) raises AttributeError. -/
def getText (c : Embedder) (o : PyObj) : Except RunError String :=
  match o with
  | .doc d => .ok (textToEmbed c d)
  | .str _ =>
      .error (.attributeError
        (if c.meta_fields_to_embed.isEmpty then
          "str object has no attribute content"
        else
          "str object has no attribute meta"))

/-- `doc.embedding = emb` on a dynamic object (only ever reached on
Documents, since text building fails first on anything else). -/
def assignEmbedding (o : PyObj) (e : List Int) : PyObj :=
  match o with
  | .doc d => .doc { d with embedding := some e }
  | .str s => .str s

/-- `for doc, emb in zip(documents, embeddings): doc.embedding = emb` —
`zip` truncates to the shorter list, and elements beyond the embeddings
list keep their previous state. -/
def applyEmbeddings : List PyObj → List (List Int) → List PyObj
  | [], _ => []
  | o :: os, [] => o :: os
  | o :: os, e :: es => assignEmbedding o e :: applyEmbeddings os es

/-- The record of one call to `Backend.embed`, with the arguments passed
through. -/
structure BackendCall where
  texts : List String
  batch_size : Nat
  show_progress_bar : Bool
  normalize_embeddings : Bool
  deriving DecidableEq, Repr

/-- The successful result of `run`: the value under the `documents` output
key, plus the trace of backend invocations the call performed. -/
structure RunResult where
  documents : List PyObj
  calls : List BackendCall
  deriving DecidableEq, Repr

/-- `SentenceTransformersDocumentEmbedder.run`, translated statement by
statement from the source: type validation on the list shape and the first
element, the readiness check on the backend handle, the per-document text
construction, a single backend call for the whole batch, and the in-place
assignment of the returned vectors. -/
def run (c : Embedder) (documents : RunInput) : Except RunError RunResult :=
  match documents with
  | .nonList _ => .error (.typeError typeErrorMsg)
  | .list objs =>
    if failsTypeCheck objs then .error (.typeError typeErrorMsg)
    else
      match c.embedding_backend with
      | Option.none => .error (.runtimeError runtimeErrorMsg)
      | some b => do
          let texts ← objs.mapM (getText c)
          let embeddings :=
            b.embed texts c.batch_size c.progress_bar c.normalize_embeddings
          pure { documents := applyEmbeddings objs embeddings,
                 calls := [⟨texts, c.batch_size, c.progress_bar, c.normalize_embeddings⟩] }

/-- Erase the `embedding` field of a Document, for stating that `run`
changes nothing else. -/
def Document.eraseEmbedding (d : Document) : Document :=
  { d with embedding := Option.none }

/-- Erase the `embedding` field inside a dynamic object. -/
def PyObj.eraseEmbedding : PyObj → PyObj
  | .doc d => .doc d.eraseEmbedding
  | .str s => .str s

/-- The Jinja2 template engine, an external collaborator consumed through a
narrow interface: parse a template string (failing on a syntax error),
enumerate the undeclared (free) variables of a parsed template, and render
a parsed template against a mapping of variable to value. -/
structure JinjaEngine (Ast : Type) where
  parse : String → Option Ast
  findUndeclaredVariables : Ast → Finset String
  render : Ast → List (String × PyValue) → String

/-- The state of a `PromptBuilder` instance: the original template string,
the compiled template, and the set of input slots registered with the
component machinery (modelled from the spec: `component.set_input_type`
registers one required, untyped input per name, and the names form a set). -/
structure PromptBuilder (Ast : Type) where
  _template_string : String
  template : Ast
  inputs : Finset String

/-- `PromptBuilder.__init__`: compile the template (a syntax error
propagates as `none`), find the undeclared variables of its parsed form and
register each of them as an input slot. -/
def PromptBuilder.make {Ast : Type} (E : JinjaEngine Ast) (template : String) :
    Option (PromptBuilder Ast) :=
  match E.parse template with
  | Option.none => Option.none
  | some ast =>
      some { _template_string := template
             template := ast
             inputs := E.findUndeclaredVariables ast }

/-- The configuration record persisted by `default_to_dict` for
`PromptBuilder`: exactly the original template string. -/
structure PromptBuilderConfig where
  template : String
  deriving DecidableEq, Repr

/-- `PromptBuilder.to_dict`: persist only the original template string. -/
def PromptBuilder.to_dict {Ast : Type} (pb : PromptBuilder Ast) : PromptBuilderConfig :=
  { template := pb._template_string }

/-- Modelled from the spec: the generic `default_from_dict` machinery (not
part of this excerpt) reconstructs the component by calling its constructor
on the persisted parameters. -/
def PromptBuilder.from_dict {Ast : Type} (E : JinjaEngine Ast)
    (cfg : PromptBuilderConfig) : Option (PromptBuilder Ast) :=
  PromptBuilder.make E cfg.template

/-- `PromptBuilder.run(**kwargs)`: render the compiled template against the
supplied mapping; the result is the string returned under the `prompt`
output key. -/
def PromptBuilder.run {Ast : Type} (E : JinjaEngine Ast) (pb : PromptBuilder Ast)
    (kwargs : List (String × PyValue)) : String :=
  E.render pb.template kwargs

/-! Helper lemmas about the embedded `run`. -/

lemma failsTypeCheck_map_doc (docs : List Document) :
    failsTypeCheck (docs.map PyObj.doc) = false := by
  cases docs <;> simp [failsTypeCheck, PyObj.isDoc]

lemma mapM_getText_map_doc (c : Embedder) (docs : List Document) :
    (docs.map PyObj.doc).mapM (getText c) = .ok (docs.map (textToEmbed c)) := by
  induction docs with
  | nil => rfl
  | cons d ds ih =>
      simp only [List.map_cons, List.mapM_cons, ih, getText]
      rfl

lemma mapM_getText_error (c : Embedder) (objs : List PyObj) (e : RunError)
    (h : objs.mapM (getText c) = .error e) : ∃ m, e = .attributeError m := by
  induction objs with
  | nil => exact Except.noConfusion h
  | cons o os ih =>
      rw [List.mapM_cons] at h
      cases o with
      | str s =>
          simp only [getText, bind, Except.bind] at h
          exact ⟨_, (Except.error.inj h).symm⟩
      | doc d =>
          simp only [getText, bind, Except.bind] at h
          cases hos : os.mapM (getText c) with
          | error e1 =>
              rw [hos] at h
              have he : e1 = e := Except.error.inj h
              subst he
              exact ih hos
          | ok ts =>
              rw [hos] at h
              simp [pure, Except.pure] at h

lemma applyEmbeddings_length (os : List PyObj) (es : List (List Int)) :
    (applyEmbeddings os es).length = os.length := by
  induction os generalizing es with
  | nil => simp [applyEmbeddings]
  | cons o os ih =>
      cases es with
      | nil => simp [applyEmbeddings]
      | cons e es => simp [applyEmbeddings, ih]

lemma applyEmbeddings_getElem (os : List PyObj) (es : List (List Int)) (i : Nat) :
    (applyEmbeddings os es)[i]? =
      match os[i]?, es[i]? with
      | some o, some e => some (assignEmbedding o e)
      | some o, Option.none => some o
      | Option.none, _ => Option.none := by
  induction os generalizing es i with
  | nil => cases es <;> simp [applyEmbeddings]
  | cons o os ih =>
      cases es with
      | nil =>
          cases i with
          | zero => simp [applyEmbeddings]
          | succ n =>
              simp only [applyEmbeddings, List.getElem?_cons_succ, List.getElem?_nil]
              cases hx : os[n]? <;> simp [hx]
      | cons e es =>
          cases i with
          | zero => simp [applyEmbeddings]
          | succ n =>
              simpa only [applyEmbeddings, List.getElem?_cons_succ] using ih es n

lemma applyEmbeddings_nil (es : List (List Int)) : applyEmbeddings [] es = [] := by
  cases es <;> rfl

lemma run_map_doc (c : Embedder) (b : Backend) (hb : c.embedding_backend = some b)
    (docs : List Document) :
    run c (.list (docs.map PyObj.doc)) =
      .ok { documents :=
              applyEmbeddings (docs.map PyObj.doc)
                (b.embed (docs.map (textToEmbed c)) c.batch_size c.progress_bar
                  c.normalize_embeddings),
            calls := [⟨docs.map (textToEmbed c), c.batch_size, c.progress_bar,
              c.normalize_embeddings⟩] } := by
  simp only [run, failsTypeCheck_map_doc, Bool.false_eq_true, if_false, hb,
    mapM_getText_map_doc, bind, Except.bind, pure, Except.pure]

/-! Concrete fixtures used by the witnesses. -/

/-- A Document with content `"hello"` and no metadata. -/
def docHello : Document :=
  { id := "1", content := some "hello", meta := [], embedding := Option.none }

/-- A second Document, with content `"world"` and some metadata. -/
def docWorld : Document :=
  { id := "2", content := some "world", meta := [("k", .str "v")],
    embedding := Option.none }

/-- An embedder in its post-construction state: default configuration and no
backend handle yet. -/
def coldEmbedder : Embedder :=
  { model := "sentence-transformers/all-mpnet-base-v2", device := "cpu",
    token := some (.fromEnvVar "HF_API_TOKEN" false), prefix_ := "", suffix := "",
    batch_size := 32, progress_bar := true, normalize_embeddings := false,
    meta_fields_to_embed := [], embedding_separator := "\n",
    embedding_backend := Option.none }

/-- A concrete backend that returns the vector `[0, 1]` for every text. -/
def constBackend : Backend := ⟨fun ts _ _ _ => ts.map fun _ => [0, 1]⟩

/-- The embedder after a successful `warm_up` with `constBackend`. -/
def warmEmbedder : Embedder :=
  { coldEmbedder with embedding_backend := some constBackend }

/-- A warmed embedder configured with prefix `"Q: "` and suffix `" /Q"`. -/
def promptyEmbedder : Embedder :=
  { warmEmbedder with prefix_ := "Q: ", suffix := " /Q" }

/-! The claims. -/

/-- C3: when building the text to embed, a configured metadata field is
included iff its key is present in the Document's meta mapping and its
value is truthy; falsy values (the numeral zero, the empty string) are
silently dropped per-field, never an error.  The second conjunct exercises
the falsy cases concretely: fields `a` (value 0), `b` (value `""`) and `c`
(absent) are dropped while `d` (value `"x"`) is kept. -/
theorem metaFields_present_and_truthy :
    (∀ (c : Embedder) (d : Document),
      metaValuesToEmbed c d =
        (c.meta_fields_to_embed.filter fun key =>
            ((d.meta.lookup key).map truthy).getD false).map
          fun key => pyStr ((d.meta.lookup key).getD PyValue.none)) ∧
    metaValuesToEmbed
        { warmEmbedder with meta_fields_to_embed := ["a", "b", "c", "d"] }
        { id := "3", content := some "t", embedding := Option.none,
          meta := [("a", .int 0), ("b", .str ""), ("d", .str "x")] } = ["x"] := by
  constructor
  · intro c d
    unfold metaValuesToEmbed
    generalize c.meta_fields_to_embed = ks
    induction ks with
    | nil => rfl
    | cons k ks ih =>
        cases hk : d.meta.lookup k with
        | none => simp [List.filterMap_cons, List.filter_cons, hk, ih]
        | some v =>
            cases hv : truthy v <;>
              simp [List.filterMap_cons, List.filter_cons, hk, hv, ih]
  · rfl

/-- C5: calling `run` on a non-empty list of Documents before `warm_up`
(backend handle absent) raises the not-ready RuntimeError; no embedding is
performed and nothing is assigned. -/
theorem run_before_warmup_raises (c : Embedder)
    (hb : c.embedding_backend = Option.none)
    (docs : List Document) (_hne : docs ≠ []) :
    run c (.list (docs.map PyObj.doc)) = .error (.runtimeError runtimeErrorMsg) := by
  simp only [run, failsTypeCheck_map_doc, Bool.false_eq_true, if_false, hb]

/-- Witness for C5 at a concrete cold embedder and a one-Document list. -/
theorem run_before_warmup_raises_witness :
    run coldEmbedder (.list [PyObj.doc docHello]) =
      .error (.runtimeError runtimeErrorMsg) :=
  run_before_warmup_raises coldEmbedder rfl [docHello] (by simp)

/-- C6: `warm_up` is idempotent — when the backend handle exists it is a
no-op (same state, factory not invoked); when absent it requests one
backend from the factory with the stored model, device and credential and
caches it. -/
theorem warmup_idempotent (f : String → String → Option Secret → Backend)
    (c : Embedder) :
    (∀ b, c.embedding_backend = some b → warm_up f c = (c, false)) ∧
    (c.embedding_backend = Option.none →
      warm_up f c =
        ({ c with embedding_backend := some (f c.model c.device c.token) }, true)) := by
  constructor
  · intro b hb
    simp [warm_up, hb]
  · intro hb
    simp [warm_up, hb]

/-- Witness for C6 on concrete warmed and cold embedders. -/
theorem warmup_idempotent_witness :
    warm_up (fun _ _ _ => constBackend) warmEmbedder = (warmEmbedder, false) ∧
    warm_up (fun _ _ _ => constBackend) coldEmbedder =
      ({ coldEmbedder with embedding_backend := some constBackend }, true) :=
  ⟨(warmup_idempotent (fun _ _ _ => constBackend) warmEmbedder).1 constBackend rfl,
   (warmup_idempotent (fun _ _ _ => constBackend) coldEmbedder).2 rfl⟩

/-- C10: the empty list does not bypass the readiness check — `run []`
before `warm_up` raises the not-ready RuntimeError; after `warm_up` it
still invokes the backend exactly once, with an empty text list, and
returns the empty list under the `documents` key. -/
theorem run_empty_list (c : Embedder) :
    (c.embedding_backend = Option.none →
      run c (.list []) = .error (.runtimeError runtimeErrorMsg)) ∧
    (∀ b, c.embedding_backend = some b →
      run c (.list []) =
        .ok { documents := [],
              calls := [⟨[], c.batch_size, c.progress_bar,
                c.normalize_embeddings⟩] }) := by
  constructor
  · intro hb
    simp [run, failsTypeCheck, hb]
  · intro b hb
    have h := run_map_doc c b hb []
    simp only [List.map_nil, applyEmbeddings_nil] at h
    rw [h]

/-- Witness for C10 on concrete cold and warmed embedders. -/
theorem run_empty_list_witness :
    run coldEmbedder (.list []) = .error (.runtimeError runtimeErrorMsg) ∧
    run warmEmbedder (.list []) =
      .ok { documents := [], calls := [⟨[], 32, true, false⟩] } :=
  ⟨(run_empty_list coldEmbedder).1 rfl,
   (run_empty_list warmEmbedder).2 constBackend rfl⟩

/-- C2: the text handed to the backend for each Document equals
prefix + separator-joined (stringified truthy values of the configured
meta fields present in the Document's meta, then the content or the empty
string) + suffix. -/
theorem run_backend_texts (c : Embedder) (b : Backend)
    (hb : c.embedding_backend = some b) (docs : List Document) :
    ∃ res, run c (.list (docs.map PyObj.doc)) = .ok res ∧
      res.calls.map BackendCall.texts =
        [docs.map fun d =>
          c.prefix_ ++
            String.intercalate c.embedding_separator
              ((c.meta_fields_to_embed.filterMap fun key =>
                  match d.meta.lookup key with
                  | some v => if truthy v then some (pyStr v) else Option.none
                  | Option.none => Option.none) ++ [d.content.getD ""]) ++
            c.suffix] := by
  refine ⟨_, run_map_doc c b hb docs, ?_⟩
  simp only [List.map_cons, List.map_nil]
  rfl

/-- Witness for C2: prefix `"Q: "`, suffix `" /Q"`, no metadata fields and
content `"hello"` produce exactly the embedded text `"Q: hello /Q"`. -/
theorem run_backend_texts_witness :
    ∃ res, run promptyEmbedder (.list [PyObj.doc docHello]) = .ok res ∧
      res.calls.map BackendCall.texts = [["Q: hello /Q"]] := by
  obtain ⟨res, h1, h2⟩ :=
    run_backend_texts promptyEmbedder constBackend rfl [docHello]
  refine ⟨res, h1, ?_⟩
  rw [h2]
  rfl

/-- C4: after `warm_up`, `run` on a non-empty Document list returns under
`documents` a list of the same length and order, with the i-th Document
carrying the i-th vector the backend returned for the i-th constructed
text; no Document is reordered, dropped or deduplicated. -/
theorem run_assigns_embeddings (c : Embedder) (b : Backend)
    (hb : c.embedding_backend = some b) (docs : List Document)
    (_hne : docs ≠ [])
    (hlen : (b.embed (docs.map (textToEmbed c)) c.batch_size c.progress_bar
        c.normalize_embeddings).length = docs.length) :
    ∃ res, run c (.list (docs.map PyObj.doc)) = .ok res ∧
      res.documents.length = docs.length ∧
      ∀ i : Nat, res.documents[i]? =
        (docs[i]?).bind fun d =>
          ((b.embed (docs.map (textToEmbed c)) c.batch_size c.progress_bar
              c.normalize_embeddings)[i]?).map fun e =>
            PyObj.doc { d with embedding := some e } := by
  refine ⟨_, run_map_doc c b hb docs, ?_, ?_⟩
  · simp [applyEmbeddings_length]
  · intro i
    rw [applyEmbeddings_getElem, List.getElem?_map]
    cases hd : docs[i]? with
    | none => simp
    | some d =>
        have hi : i < docs.length := by
          by_contra hge
          rw [List.getElem?_eq_none (Nat.le_of_not_lt hge)] at hd
          exact Option.noConfusion hd
        have hie : i < (b.embed (docs.map (textToEmbed c)) c.batch_size
            c.progress_bar c.normalize_embeddings).length := by
          rw [hlen]; exact hi
        cases he : (b.embed (docs.map (textToEmbed c)) c.batch_size
            c.progress_bar c.normalize_embeddings)[i]? with
        | none =>
            rw [List.getElem?_eq_none_iff] at he
            exact absurd hie (Nat.not_lt_of_le he)
        | some e => simp [assignEmbedding]

/-- Witness for C4 on a concrete warmed embedder and a two-Document list:
both Documents come back in order with the backend's vectors. -/
theorem run_assigns_embeddings_witness :
    ∃ res, run warmEmbedder (.list [PyObj.doc docHello, PyObj.doc docWorld]) =
        .ok res ∧
      res.documents.length = 2 ∧
      ∀ i : Nat, res.documents[i]? =
        (([docHello, docWorld] : List Document)[i]?).bind fun d =>
          ((constBackend.embed ([docHello, docWorld].map (textToEmbed warmEmbedder))
              32 true false)[i]?).map fun e =>
            PyObj.doc { d with embedding := some e } :=
  run_assigns_embeddings warmEmbedder constBackend rfl [docHello, docWorld]
    (by simp) (by rfl)

/-- C9: `run` mutates only the `embedding` field of each input Document —
erasing the embeddings of the outputs gives back exactly the inputs (with
their own embeddings erased), so content, meta and every other attribute
are unchanged; the component state itself is taken immutably. -/
theorem run_frame (c : Embedder) (b : Backend)
    (hb : c.embedding_backend = some b) (docs : List Document) :
    ∃ res, run c (.list (docs.map PyObj.doc)) = .ok res ∧
      res.documents.length = docs.length ∧
      ∀ i : Nat, (res.documents[i]?).map PyObj.eraseEmbedding =
        (docs[i]?).map fun d => PyObj.doc d.eraseEmbedding := by
  refine ⟨_, run_map_doc c b hb docs, ?_, ?_⟩
  · simp [applyEmbeddings_length]
  · intro i
    rw [applyEmbeddings_getElem, List.getElem?_map]
    cases hd : docs[i]? with
    | none => simp
    | some d =>
        cases he : (b.embed (docs.map (textToEmbed c)) c.batch_size
            c.progress_bar c.normalize_embeddings)[i]? <;>
          simp [assignEmbedding, PyObj.eraseEmbedding, Document.eraseEmbedding]

/-- Witness for C9 on a concrete warmed embedder and a two-Document list. -/
theorem run_frame_witness :
    ∃ res, run warmEmbedder (.list [PyObj.doc docHello, PyObj.doc docWorld]) =
        .ok res ∧
      res.documents.length = 2 ∧
      ∀ i : Nat, (res.documents[i]?).map PyObj.eraseEmbedding =
        (([docHello, docWorld] : List Document)[i]?).map fun d =>
          PyObj.doc d.eraseEmbedding :=
  run_frame warmEmbedder constBackend rfl [docHello, docWorld]

/-- C1 (counterexample to the claim as stated): a list whose first element
is a Document but whose second element is a plain string passes the type
check of `run` — the check inspects only `documents[0]` — and the call then
fails with an AttributeError during text building, not with the
type-mismatch TypeError the claim requires for every list containing a
non-Document element. -/
theorem run_mixed_list_not_typeError :
    run warmEmbedder (.list [PyObj.doc docHello, PyObj.str "not a document"]) =
      .error (.attributeError "str object has no attribute content") ∧
    RunError.attributeError "str object has no attribute content" ≠
      RunError.typeError typeErrorMsg := by
  constructor
  · rfl
  · intro h
    exact RunError.noConfusion h

/-- C1 (amended): `run` raises the type-mismatch TypeError naming the
expected shape exactly when the input is not a list at all, or is a
non-empty list whose first element is not a Document; in every other case
no TypeError is raised (in particular it is raised before any backend
work, and a list whose first element is a Document but which contains a
later non-Document element passes the validation). -/
theorem run_typeError_iff (c : Embedder) (input : RunInput) :
    run c input = .error (.typeError typeErrorMsg) ↔
      (∃ s, input = .nonList s) ∨
      (∃ o os, input = .list (o :: os) ∧ o.isDoc = false) := by
  constructor
  · intro h
    cases input with
    | nonList s => exact Or.inl ⟨s, rfl⟩
    | list objs =>
        right
        cases hft : failsTypeCheck objs with
        | true =>
            cases objs with
            | nil => simp [failsTypeCheck] at hft
            | cons o os =>
                refine ⟨o, os, rfl, ?_⟩
                simp only [failsTypeCheck, List.head?_cons, Bool.not_eq_true'] at hft
                exact hft
        | false =>
            exfalso
            simp only [run, hft, Bool.false_eq_true, if_false] at h
            cases hbe : c.embedding_backend with
            | none =>
                rw [hbe] at h
                exact absurd (Except.error.inj h) (by simp)
            | some b =>
                rw [hbe] at h
                simp only [bind, Except.bind] at h
                cases hm : objs.mapM (getText c) with
                | error e =>
                    rw [hm] at h
                    obtain ⟨m, hmm⟩ := mapM_getText_error c objs e hm
                    rw [hmm] at h
                    exact absurd (Except.error.inj h) (by simp)
                | ok ts =>
                    rw [hm] at h
                    exact Except.noConfusion h
  · rintro (⟨s, rfl⟩ | ⟨o, os, rfl, ho⟩)
    · rfl
    · simp [run, failsTypeCheck, ho]

/-- C7: for every syntactically valid template (one the engine parses),
construction succeeds and the declared input names are exactly the set of
free (undeclared) variables the engine finds — one slot per name, names
unique (a `Finset`), order-independent. -/
theorem promptBuilder_inputs (Ast : Type) (E : JinjaEngine Ast) (t : String)
    (ast : Ast) (hp : E.parse t = some ast) :
    ∃ pb, PromptBuilder.make E t = some pb ∧
      pb.inputs = E.findUndeclaredVariables ast := by
  refine ⟨{ _template_string := t, template := ast,
            inputs := E.findUndeclaredVariables ast }, ?_, rfl⟩
  simp [PromptBuilder.make, hp]

/-- A concrete stand-in for the external template engine, used by the
witnesses: its parsed form is a list of variable names (here, the whole
template string as a single variable) and rendering substitutes looked-up
values. -/
def toyEngine : JinjaEngine (List String) where
  parse := fun s => some [s]
  findUndeclaredVariables := fun vars => vars.toFinset
  render := fun vars kwargs =>
    String.intercalate " "
      (vars.map fun v => pyStr ((kwargs.lookup v).getD (PyValue.str v)))

/-- Witness for C7 on the concrete engine and the template `"x"`. -/
theorem promptBuilder_inputs_witness :
    ∃ pb, PromptBuilder.make toyEngine "x" = some pb ∧
      pb.inputs = toyEngine.findUndeclaredVariables ["x"] :=
  promptBuilder_inputs (List String) toyEngine "x" ["x"] rfl

/-- C8: serialization persists exactly the original template string, and
deserializing that configuration yields an instance with the same declared
inputs and the same rendering behavior on every input mapping as the
original. -/
theorem promptBuilder_roundtrip (Ast : Type) (E : JinjaEngine Ast) (t : String)
    (pb : PromptBuilder Ast) (h : PromptBuilder.make E t = some pb) :
    PromptBuilder.to_dict pb = { template := t } ∧
    ∃ pb2, PromptBuilder.from_dict E (PromptBuilder.to_dict pb) = some pb2 ∧
      pb2.inputs = pb.inputs ∧
      ∀ kwargs, PromptBuilder.run E pb2 kwargs = PromptBuilder.run E pb kwargs := by
  unfold PromptBuilder.make at h
  cases hp : E.parse t with
  | none =>
      rw [hp] at h
      exact Option.noConfusion h
  | some ast =>
      rw [hp] at h
      have hpb : pb = { _template_string := t,
                        template := ast,
                        inputs := E.findUndeclaredVariables ast } :=
        (Option.some.inj h).symm
      subst hpb
      refine ⟨rfl, { _template_string := t,
                     template := ast,
                     inputs := E.findUndeclaredVariables ast }, ?_, rfl, fun _ => rfl⟩
      simp [PromptBuilder.from_dict, PromptBuilder.to_dict, PromptBuilder.make, hp]

/-- The PromptBuilder instance constructed by the concrete engine from the
template `"x"`. -/
def pbX : PromptBuilder (List String) :=
  { _template_string := "x", template := ["x"],
    inputs := (["x"] : List String).toFinset }

/-- Witness for C8 on the concrete engine and the template `"x"`. -/
theorem promptBuilder_roundtrip_witness :
    PromptBuilder.to_dict pbX = { template := "x" } ∧
    ∃ pb2, PromptBuilder.from_dict toyEngine (PromptBuilder.to_dict pbX) = some pb2 ∧
      pb2.inputs = pbX.inputs ∧
      ∀ kwargs, PromptBuilder.run toyEngine pb2 kwargs =
        PromptBuilder.run toyEngine pbX kwargs :=
  promptBuilder_roundtrip (List String) toyEngine "x" pbX rfl

end Haystack
